import Mathlib

/-!
Shallow embedding of the Supabase-backed auth API in
`Simple8-backend-supabase/server.js` (PhongNew-Backend).

The mutable state is the external Postgres store: a `users` table and a
`resets` table.  Each Express handler is embedded as a pure function from
the request body (JSON string fields, `Option String` with `none` for an
absent field), the current time (`Date.now()` in milliseconds), fresh
values produced by the runtime (row ids, `crypto.randomBytes` tokens) and
the store, to an HTTP response paired with the resulting store.

External libraries are modelled, not re-implemented:
  * bcryptjs: `bcryptHash`/`bcryptCompare` model a deterministic digest
    with the bcryptjs contract that `compare p d` holds exactly when `d`
    is a digest of `p`;
  * jsonwebtoken: `signToken` models `jwt.sign` as an opaque encoding of
    the claims;
  * nodemailer: `MailEnv` records whether SMTP is configured and whether
    an attempted send rejects; `sendMailRaises` is true exactly when the
    `await sendMail(...)` expression in a handler throws;
  * supabase-js: `.eq(...).maybeSingle()` resolves to an error when more
    than one row matches, otherwise to the row or `none` (`maybeSingle`
    below); a handler that does `if (error) throw error` lands in its
    catch block and answers 500.  The one store call whose error object
    the code ignores is the row deletion in POST /api/auth/reset; its
    outcome is therefore a `deleteOk` parameter of the `reset` handler
    (an errored supabase delete does not throw and removes nothing).

JavaScript string primitives used by the handlers
(`String.prototype.trim`, `String.prototype.toLowerCase` restricted to
its ASCII action, truthiness of JSON fields) are translated below.
-/

namespace PhongBackend

/-- A row of the `users` table (id, name, email, pass_hash, approved). -/
structure User where
  id : Nat
  name : String
  email : String
  pass_hash : String
  approved : Bool
deriving Repr, DecidableEq

/-- A row of the `resets` table; `expires_at` is kept as milliseconds
since the epoch, the value `new Date(r.expires_at).getTime()` recovers
from the stored ISO string. -/
structure ResetRow where
  id : Nat
  email : String
  token : String
  expires_at : Nat
deriving Repr, DecidableEq

/-- The backing store: the two Supabase tables. -/
structure Store where
  users : List User
  resets : List ResetRow
deriving Repr, DecidableEq

/-- An HTTP JSON response: status code and the `message` field. -/
structure Resp where
  status : Nat
  message : String
deriving Repr, DecidableEq

/-- Result of POST /api/auth/login, whose success body carries a signed
token and the public user fields instead of a message. -/
inductive LoginResult where
  | failure (status : Nat) (message : String)
  | success (token : String) (id : Nat) (email : String) (name : String)
deriving Repr, DecidableEq

/-- Process configuration read from the environment at startup. -/
structure Config where
  adminEmail : String
  adminCode : String
deriving Repr, DecidableEq

/-- State of the nodemailer side: whether SMTP_* is fully configured
(`getTransporter()` returns a transport) and whether a send attempted on
that transport rejects. -/
structure MailEnv where
  configured : Bool
  sendFails : Bool
deriving Repr, DecidableEq

/-- Predicate for when `await sendMail(...)` throws: iff a transport exists and the actual
send rejects; with no transport `sendMail` returns without sending. -/
def sendMailRaises (m : MailEnv) : Bool :=
  m.configured && m.sendFails

/-- JavaScript truthiness of a JSON string field: absent (`undefined`)
and the empty string are falsy. -/
def truthy (v : Option String) : Bool :=
  match v with
  | none => false
  | some s => !s.isEmpty

/-- Evaluation of `String(x || ´´)`: an absent field becomes the empty string. -/
def orEmpty (v : Option String) : String :=
  match v with
  | none => ""
  | some s => s

/-- Action of `String.prototype.toLowerCase` on one character (ASCII range, the
case arising for email addresses): code points 65..90 shift by 32. -/
def jsLowerChar (c : Char) : Char :=
  if 65 ≤ c.toNat ∧ c.toNat ≤ 90 then Char.ofNat (c.toNat + 32) else c

/-- Embeds `String.prototype.toLowerCase`. -/
def jsToLower (s : String) : String :=
  ⟨s.data.map jsLowerChar⟩

/-- The WhiteSpace/LineTerminator set removed by
`String.prototype.trim`. -/
def jsWhite (c : Char) : Bool :=
  c.toNat == 32 || c.toNat == 9 || c.toNat == 10 || c.toNat == 13 ||
    c.toNat == 11 || c.toNat == 12 || c.toNat == 160 || c.toNat == 65279

/-- Remove trailing characters satisfying `p`. -/
def dropWhileRight (p : α → Bool) (l : List α) : List α :=
  (l.reverse.dropWhile p).reverse

/-- Embeds `String.prototype.trim` on the character list. -/
def jsTrimList (l : List Char) : List Char :=
  dropWhileRight jsWhite (l.dropWhile jsWhite)

/-- Embeds `String.prototype.trim`. -/
def jsTrim (s : String) : String :=
  ⟨jsTrimList s.data⟩

/-- Evaluation of `String(email).trim().toLowerCase()`, the normalisation every
handler applies to the submitted email. -/
def normEmail (e : String) : String :=
  jsToLower (jsTrim e)

/-- Model of `bcrypt.hash(p, 8)`: a deterministic digest tagging the
cost factor.  bcryptjs salts its digests; what the handlers rely on is
only the compare/hash contract captured with `bcryptCompare`. -/
def bcryptHash (p : String) : String :=
  "$2a$08$" ++ p

/-- Model of `bcrypt.compare(p, d)`: true exactly when `d` is a digest
of `p`. -/
def bcryptCompare (p digest : String) : Bool :=
  digest == bcryptHash p

/-- Model of `jwt.sign({uid, email, name}, JWT_SECRET, ...)`: an opaque
encoding of the claims. -/
def signToken (uid : Nat) (email name : String) : String :=
  "jwt." ++ toString uid ++ "." ++ email ++ "." ++ name

/-- supabase-js `.maybeSingle()`: error when the filtered result has
more than one row, otherwise the row if any. -/
def maybeSingle (l : List α) : Except Unit (Option α) :=
  match l with
  | [] => Except.ok none
  | [a] => Except.ok (some a)
  | _ => Except.error ()

/-- Embeds `supabase.from(´users´).insert(...)` (id generated by the store). -/
def insertUser (s : Store) (u : User) : Store :=
  { s with users := s.users ++ [u] }

/-- Embeds `supabase.from(´users´).update({approved: true}).eq(´email´, e)`. -/
def updateApprovedByEmail (s : Store) (e : String) : Store :=
  { s with users := s.users.map (fun u => if u.email == e then { u with approved := true } else u) }

/-- Embeds `supabase.from(´users´).update({pass_hash}).eq(´email´, e)`. -/
def updatePassHashByEmail (s : Store) (e h : String) : Store :=
  { s with users := s.users.map (fun u => if u.email == e then { u with pass_hash := h } else u) }

/-- Embeds `supabase.from(´users´).update({pass_hash}).eq(´id´, i)`. -/
def updatePassHashById (s : Store) (i : Nat) (h : String) : Store :=
  { s with users := s.users.map (fun u => if u.id == i then { u with pass_hash := h } else u) }

/-- Embeds `supabase.from(´resets´).insert(...)`. -/
def insertReset (s : Store) (r : ResetRow) : Store :=
  { s with resets := s.resets ++ [r] }

/-- Embeds `supabase.from(´resets´).delete().eq(´id´, i)`. -/
def deleteResetById (s : Store) (i : Nat) : Store :=
  { s with resets := s.resets.filter (fun r => r.id != i) }

/-- POST /api/auth/register (server.js lines 94-117).  `freshId` is the
row id the store generates for the insert. -/
def register (cfg : Config) (mail : MailEnv) (freshId : Nat) (s : Store)
    (name email password : Option String) : Resp × Store :=
  if !(truthy name && truthy email && truthy password) then
    (⟨400, "Thiếu trường bắt buộc"⟩, s)
  else
    let lower := normEmail (orEmpty email)
    match maybeSingle (s.users.filter (fun u => u.email == lower)) with
    | Except.error _ => (⟨500, "Lỗi server"⟩, s)
    | Except.ok (some _) => (⟨400, "Email đã tồn tại"⟩, s)
    | Except.ok none =>
      let pass_hash := bcryptHash (orEmpty password)
      let s1 := insertUser s ⟨freshId, orEmpty name, lower, pass_hash, false⟩
      if !cfg.adminEmail.isEmpty && sendMailRaises mail then
        (⟨500, "Lỗi server"⟩, s1)
      else
        (⟨200, "Đăng ký thành công. Vui lòng đợi admin phê duyệt."⟩, s1)

/-- POST /api/auth/approve (server.js lines 119-130). -/
def approve (cfg : Config) (s : Store) (email code : Option String) : Resp × Store :=
  if !(truthy email && truthy code) then
    (⟨400, "Thiếu email/code"⟩, s)
  else if cfg.adminCode.isEmpty || orEmpty code != cfg.adminCode then
    (⟨403, "Sai mã admin"⟩, s)
  else
    let lower := normEmail (orEmpty email)
    (⟨200, "Đã duyệt"⟩, updateApprovedByEmail s lower)

/-- POST /api/auth/login (server.js lines 132-149).  Reads the store
only. -/
def login (s : Store) (email password : Option String) : LoginResult :=
  let lower := normEmail (orEmpty email)
  match maybeSingle (s.users.filter (fun u => u.email == lower)) with
  | Except.error _ => LoginResult.failure 500 "Lỗi server"
  | Except.ok none => LoginResult.failure 400 "Email hoặc mật khẩu sai"
  | Except.ok (some u) =>
    if !u.approved then LoginResult.failure 403 "Tài khoản chưa được duyệt"
    else if !(bcryptCompare (orEmpty password) u.pass_hash) then
      LoginResult.failure 400 "Email hoặc mật khẩu sai"
    else
      LoginResult.success (signToken u.id u.email u.name) u.id u.email u.name

/-- POST /api/auth/forgot (server.js lines 151-168).  `now` is
`Date.now()`, `freshId` the generated row id, `freshToken` the value of
`crypto.randomBytes(24).toString(´hex´)`. -/
def forgot (mail : MailEnv) (now freshId : Nat) (freshToken : String)
    (s : Store) (email : Option String) : Resp × Store :=
  let lower := normEmail (orEmpty email)
  match maybeSingle (s.users.filter (fun u => u.email == lower)) with
  | Except.error _ => (⟨500, "Lỗi server"⟩, s)
  | Except.ok none => (⟨200, "Nếu email tồn tại, chúng tôi đã gửi hướng dẫn."⟩, s)
  | Except.ok (some _) =>
    let s1 := insertReset s ⟨freshId, lower, freshToken, now + 1000 * 60 * 30⟩
    if sendMailRaises mail then
      (⟨500, "Lỗi server"⟩, s1)
    else
      (⟨200, "Nếu email tồn tại, chúng tôi đã gửi hướng dẫn."⟩, s1)

/-- POST /api/auth/reset (server.js lines 170-187).  `deleteOk` is the
outcome of the final `supabase.from(´resets´).delete()` call, whose
error object the code never reads. -/
def reset (s : Store) (now : Nat) (deleteOk : Bool)
    (email token newPassword : Option String) : Resp × Store :=
  let lower := normEmail (orEmpty email)
  match maybeSingle (s.resets.filter (fun r => r.email == lower && r.token == orEmpty token)) with
  | Except.error _ => (⟨500, "Lỗi server"⟩, s)
  | Except.ok none => (⟨400, "Token không hợp lệ"⟩, s)
  | Except.ok (some r) =>
    if r.expires_at < now then (⟨400, "Token đã hết hạn"⟩, s)
    else
      let s1 := updatePassHashByEmail s lower (bcryptHash (orEmpty newPassword))
      let s2 := if deleteOk then deleteResetById s1 r.id else s1
      (⟨200, "Đã đặt lại mật khẩu"⟩, s2)

/-- POST /api/auth/change-password (server.js lines 189-206), after the
`auth` middleware has verified the bearer token; `uid` is the `uid`
claim it placed in `req.user`. -/
def changePassword (s : Store) (uid : Nat)
    (oldPassword newPassword : Option String) : Resp × Store :=
  if !(truthy newPassword) then
    (⟨400, "Thiếu mật khẩu mới"⟩, s)
  else
    match maybeSingle (s.users.filter (fun u => u.id == uid)) with
    | Except.error _ => (⟨500, "Lỗi server"⟩, s)
    | Except.ok none => (⟨404, "Không tìm thấy người dùng"⟩, s)
    | Except.ok (some u) =>
      if !(bcryptCompare (orEmpty oldPassword) u.pass_hash) then
        (⟨400, "Mật khẩu hiện tại không đúng"⟩, s)
      else
        (⟨200, "Đã đổi mật khẩu"⟩,
          updatePassHashById s uid (bcryptHash (orEmpty newPassword)))

/-! Concrete states used by the witnesses and counterexamples. -/

/-- A configured admin mailbox and approval code. -/
def cfg0 : Config := ⟨"admin@x.com", "secret"⟩

/-- SMTP configured, sends succeed. -/
def mailOk : MailEnv := ⟨true, false⟩

/-- SMTP configured, the send rejects. -/
def mailBad : MailEnv := ⟨true, true⟩

/-- An approved user. -/
def u1 : User := ⟨1, "An", "a@x.com", bcryptHash "p1", true⟩

/-- A user not yet approved. -/
def u2 : User := ⟨2, "Bo", "b@x.com", bcryptHash "p2", false⟩

/-- The empty store. -/
def s0 : Store := ⟨[], []⟩

/-- A store with one approved and one pending user and one reset row
for the approved user, expiring at time 1000. -/
def s1 : Store := ⟨[u1, u2], [⟨7, "a@x.com", "tok1", 1000⟩]⟩

/-! Helper lemmas: the ASCII lowering and trimming primitives. -/

/-- Value of `Char.toNat` after `Char.ofNat` on a valid code point. -/
theorem char_toNat_ofNat (n : Nat) (h : n.isValidChar) : (Char.ofNat n).toNat = n := by
  simp only [Char.ofNat, dif_pos h, Char.ofNatAux, Char.toNat, UInt32.toNat]
  simp

theorem toNat_jsLowerChar_of_upper (c : Char) (h : 65 ≤ c.toNat ∧ c.toNat ≤ 90) :
    (jsLowerChar c).toNat = c.toNat + 32 := by
  rw [jsLowerChar, if_pos h, char_toNat_ofNat]
  left
  omega

theorem jsLowerChar_of_not_upper (c : Char) (h : ¬(65 ≤ c.toNat ∧ c.toNat ≤ 90)) :
    jsLowerChar c = c := by
  rw [jsLowerChar, if_neg h]

theorem jsLowerChar_idem (c : Char) : jsLowerChar (jsLowerChar c) = jsLowerChar c := by
  by_cases h : 65 ≤ c.toNat ∧ c.toNat ≤ 90
  · have ht := toNat_jsLowerChar_of_upper c h
    have hn : ¬(65 ≤ (jsLowerChar c).toNat ∧ (jsLowerChar c).toNat ≤ 90) := by omega
    rw [jsLowerChar, if_neg hn]
  · have hc := jsLowerChar_of_not_upper c h
    rw [hc]
    exact hc

theorem jsWhite_eq_false_of_bounds (c : Char) (h1 : 65 ≤ c.toNat) (h2 : c.toNat ≤ 122) :
    jsWhite c = false := by
  simp only [jsWhite, Bool.or_eq_false_iff, beq_eq_false_iff_ne, ne_eq]
  omega

theorem jsWhite_jsLowerChar (c : Char) : jsWhite (jsLowerChar c) = jsWhite c := by
  by_cases h : 65 ≤ c.toNat ∧ c.toNat ≤ 90
  · have ht := toNat_jsLowerChar_of_upper c h
    rw [jsWhite_eq_false_of_bounds c h.1 (by omega),
      jsWhite_eq_false_of_bounds (jsLowerChar c) (by omega) (by omega)]
  · rw [jsLowerChar_of_not_upper c h]

theorem jsWhite_comp_jsLowerChar : jsWhite ∘ jsLowerChar = jsWhite := by
  funext c
  exact jsWhite_jsLowerChar c

theorem map_jsLowerChar_idem (l : List Char) :
    (l.map jsLowerChar).map jsLowerChar = l.map jsLowerChar := by
  rw [List.map_map]
  exact List.map_congr_left (fun c _ => jsLowerChar_idem c)

theorem dropWhile_map_jsLowerChar (l : List Char) :
    (l.map jsLowerChar).dropWhile jsWhite = (l.dropWhile jsWhite).map jsLowerChar := by
  rw [List.dropWhile_map, jsWhite_comp_jsLowerChar]

theorem dropWhileRight_map_jsLowerChar (l : List Char) :
    dropWhileRight jsWhite (l.map jsLowerChar) = (dropWhileRight jsWhite l).map jsLowerChar := by
  rw [dropWhileRight, dropWhileRight, ← List.map_reverse, dropWhile_map_jsLowerChar,
    List.map_reverse]

theorem jsTrimList_map_jsLowerChar (l : List Char) :
    jsTrimList (l.map jsLowerChar) = (jsTrimList l).map jsLowerChar := by
  rw [jsTrimList, jsTrimList, dropWhile_map_jsLowerChar, dropWhileRight_map_jsLowerChar]

theorem dropWhile_self_dropWhile (p : α → Bool) (l : List α) :
    (l.dropWhile p).dropWhile p = l.dropWhile p := by
  induction l with
  | nil => rfl
  | cons a t ih =>
    by_cases h : p a
    · rw [List.dropWhile_cons_of_pos h, ih]
    · rw [List.dropWhile_cons_of_neg h, List.dropWhile_cons_of_neg h]

theorem dropWhileRight_self (p : α → Bool) (l : List α) :
    dropWhileRight p (dropWhileRight p l) = dropWhileRight p l := by
  rw [dropWhileRight, dropWhileRight, List.reverse_reverse, dropWhile_self_dropWhile]

theorem dropWhile_fix_of_cons (p : α → Bool) (a : α) (t : List α)
    (h : (a :: t).dropWhile p = a :: t) : p a = false := by
  by_cases hp : p a
  · rw [List.dropWhile_cons_of_pos hp] at h
    have := (List.dropWhile_sublist (l := t) p).length_le
    have h2 : (t.dropWhile p).length = (a :: t).length := by rw [h]
    simp at h2
    omega
  · exact Bool.eq_false_iff.mpr hp

theorem dropWhile_dropWhileRight_fix (p : α → Bool) (l : List α)
    (h : l.dropWhile p = l) : (dropWhileRight p l).dropWhile p = dropWhileRight p l := by
  have hpre : dropWhileRight p l <+: l := by
    have h1 : (l.reverse.dropWhile p).reverse <+: l.reverse.reverse :=
      (List.dropWhile_suffix p).reverse
    rw [List.reverse_reverse] at h1
    exact h1
  match l, hpre with
  | [], _ => rfl
  | a :: t, hp =>
    rcases List.prefix_cons_iff.mp hp with h0 | ⟨u, hu, _⟩
    · rw [h0]
      rfl
    · rw [hu]
      exact List.dropWhile_cons_of_neg
        (by rw [dropWhile_fix_of_cons p a t h]; exact Bool.false_ne_true)

theorem jsTrimList_idem (l : List Char) : jsTrimList (jsTrimList l) = jsTrimList l := by
  rw [jsTrimList, jsTrimList]
  rw [dropWhile_dropWhileRight_fix jsWhite (l.dropWhile jsWhite)
    (dropWhile_self_dropWhile jsWhite l)]
  exact dropWhileRight_self jsWhite (l.dropWhile jsWhite)

theorem jsToLower_idem (s : String) : jsToLower (jsToLower s) = jsToLower s :=
  congrArg String.mk (map_jsLowerChar_idem s.data)

theorem jsTrim_idem (s : String) : jsTrim (jsTrim s) = jsTrim s :=
  congrArg String.mk (jsTrimList_idem s.data)

theorem jsTrim_jsToLower (s : String) : jsTrim (jsToLower s) = jsToLower (jsTrim s) :=
  congrArg String.mk (jsTrimList_map_jsLowerChar s.data)

/-- Normalising an already trimmed-and-lowercased email is the same as
normalising the original. -/
theorem normEmail_trim_lower (e : String) : normEmail (jsTrim (jsToLower e)) = normEmail e := by
  rw [normEmail, jsTrim_idem, jsTrim_jsToLower, normEmail, jsToLower_idem]

/-- Email normalisation is idempotent. -/
theorem normEmail_idem (e : String) : normEmail (normEmail e) = normEmail e := by
  have h := normEmail_trim_lower e
  rw [jsTrim_jsToLower] at h
  exact h

/-! Helper lemmas about the store and library models. -/

theorem maybeSingle_of_filter_single {l : List α} {p : α → Bool} {a : α}
    (h : l.filter p = [a]) : maybeSingle (l.filter p) = Except.ok (some a) := by
  rw [h]
  rfl

theorem maybeSingle_of_filter_nil {l : List α} {p : α → Bool}
    (h : l.filter p = []) : maybeSingle (l.filter p) = Except.ok none := by
  rw [h]
  rfl

/-- Reduction of `orEmpty` on a present field. -/
theorem orEmpty_some (x : String) : orEmpty (some x) = x := rfl

/-- A nonempty submitted string field is truthy. -/
theorem truthy_some_of_ne {x : String} (h : x ≠ "") : truthy (some x) = true := by
  rw [truthy]
  have hx : x.isEmpty = false := by
    rw [Bool.eq_false_iff]
    intro hc
    exact h ((String.isEmpty_iff x).mp hc)
  rw [hx]
  rfl

/-- The modelled bcrypt digest determines the plaintext. -/
theorem bcryptHash_inj {a b : String} (h : bcryptHash a = bcryptHash b) : a = b := by
  have hd := congrArg String.data h
  simp only [bcryptHash, String.data_append] at hd
  exact String.ext (List.append_cancel_left hd)

/-- A freshly produced digest verifies its plaintext. -/
theorem bcryptCompare_bcryptHash (p : String) : bcryptCompare p (bcryptHash p) = true := by
  simp [bcryptCompare]

/-- A digest of a different plaintext does not verify. -/
theorem bcryptCompare_bcryptHash_ne {p q : String} (h : p ≠ q) :
    bcryptCompare p (bcryptHash q) = false := by
  rw [bcryptCompare]
  exact beq_eq_false_iff_ne.mpr (fun hc => h (bcryptHash_inj hc).symm)

/-- Updating password hashes by id commutes with filtering by email. -/
theorem filter_email_map_updateById (l : List User) (uid : Nat) (h e : String) :
    (l.map (fun x => if x.id == uid then { x with pass_hash := h } else x)).filter
      (fun x => x.email == e) =
    (l.filter (fun x => x.email == e)).map
      (fun x => if x.id == uid then { x with pass_hash := h } else x) := by
  have hfun : ((fun x : User => x.email == e) ∘
      (fun x => if x.id == uid then { x with pass_hash := h } else x)) =
      (fun x : User => x.email == e) := by
    funext x
    by_cases hx : (x.id == uid) = true <;> simp [Function.comp, hx]
  rw [List.filter_map, hfun]

/-- Shared shape of the duplicate-email rejection in register: with the
three fields present and exactly one stored user holding the normalised
email, register answers 400 and hands back the store untouched. -/
theorem register_of_duplicate (cfg : Config) (mail : MailEnv) (freshId : Nat) (s : Store)
    (name email password : Option String) (u : User)
    (hn : truthy name = true) (he : truthy email = true) (hp : truthy password = true)
    (hdup : s.users.filter (fun x => x.email == normEmail (orEmpty email)) = [u]) :
    register cfg mail freshId s name email password = (⟨400, "Email đã tồn tại"⟩, s) := by
  rw [register]
  rw [hn, he, hp]
  simp only [Bool.and_self, Bool.not_true, Bool.false_eq_true, if_false]
  rw [maybeSingle_of_filter_single hdup]

/-! The claims. -/

/-- Claim C1: a reset token is accepted at most once.  With exactly one
reset row matching the submitted email and token (the data-model
invariant for the unguessable random tokens) and the row not expired, a
first POST /api/auth/reset answers 200 and the row is gone from the
resulting store, and a second request with the same email and token, at
any later time, answers 400 with the invalid-token message and leaves
the store unchanged. -/
theorem C1_reset_token_single_use (s : Store) (now now2 : Nat)
    (email token np np2 : Option String) (r : ResetRow)
    (hr : s.resets.filter (fun x => x.email == normEmail (orEmpty email) &&
      x.token == orEmpty token) = [r])
    (hexp : now < r.expires_at) :
    (reset s now true email token np).1 = ⟨200, "Đã đặt lại mật khẩu"⟩ ∧
    r ∉ (reset s now true email token np).2.resets ∧
    reset (reset s now true email token np).2 now2 true email token np2 =
      (⟨400, "Token không hợp lệ"⟩, (reset s now true email token np).2) := by
  have h1 : reset s now true email token np =
      (⟨200, "Đã đặt lại mật khẩu"⟩,
        deleteResetById (updatePassHashByEmail s (normEmail (orEmpty email))
          (bcryptHash (orEmpty np))) r.id) := by
    rw [reset, maybeSingle_of_filter_single hr]
    simp [Nat.not_lt.mpr (Nat.le_of_lt hexp)]
  have hresets : (reset s now true email token np).2.resets =
      s.resets.filter (fun x => x.id != r.id) := by
    rw [h1]
    rfl
  have hnil : (reset s now true email token np).2.resets.filter
      (fun x => x.email == normEmail (orEmpty email) && x.token == orEmpty token) = [] := by
    rw [hresets, List.filter_filter]
    refine List.filter_eq_nil_iff.mpr ?_
    intro a ha
    by_cases hpa : (a.email == normEmail (orEmpty email) && a.token == orEmpty token) = true
    · have har : a = r := by
        have : a ∈ s.resets.filter (fun x => x.email == normEmail (orEmpty email) &&
            x.token == orEmpty token) := List.mem_filter.mpr ⟨ha, hpa⟩
        rw [hr] at this
        exact List.mem_singleton.mp this
      subst har
      simp
    · intro hco
      exact hpa ((Bool.and_eq_true _ _).mp hco).1
  refine ⟨by rw [h1], ?_, ?_⟩
  · rw [hresets]
    intro hmem
    have := (List.mem_filter.mp hmem).2
    simp at this
  · rw [reset, maybeSingle_of_filter_nil hnil]

/-- Witness for C1 on the concrete store `s1`. -/
theorem C1_reset_token_single_use_witness :
    (reset s1 900 true (some "a@x.com") (some "tok1") (some "np")).1 =
      ⟨200, "Đã đặt lại mật khẩu"⟩ ∧
    (⟨7, "a@x.com", "tok1", 1000⟩ : ResetRow) ∉
      (reset s1 900 true (some "a@x.com") (some "tok1") (some "np")).2.resets ∧
    reset (reset s1 900 true (some "a@x.com") (some "tok1") (some "np")).2 2000 true
        (some "a@x.com") (some "tok1") (some "np2") =
      (⟨400, "Token không hợp lệ"⟩,
        (reset s1 900 true (some "a@x.com") (some "tok1") (some "np")).2) :=
  C1_reset_token_single_use s1 900 2000 (some "a@x.com") (some "tok1") (some "np") (some "np2")
    ⟨7, "a@x.com", "tok1", 1000⟩ (by decide) (by decide)

/-- Claim C2 fails as stated: the claim quantifies over every registered
user with a non-verifying password, but for a registered, not yet
approved user the login handler answers 403 with the not-approved
message before ever comparing the password, while an unknown email
answers 400 — the two responses differ, revealing that the email
exists.  Concretely in `s1`: `u2` is registered and unapproved, the
supplied password does not verify, yet login answers 403, whereas the
unknown `c@x.com` gets 400. -/
theorem C2_login_enumeration_counterexample :
    bcryptCompare "zzz" u2.pass_hash = false ∧
    s1.users.filter (fun x => x.email == normEmail (orEmpty (some "b@x.com"))) = [u2] ∧
    s1.users.filter (fun x => x.email == normEmail (orEmpty (some "c@x.com"))) = [] ∧
    login s1 (some "b@x.com") (some "zzz") =
      LoginResult.failure 403 "Tài khoản chưa được duyệt" ∧
    login s1 (some "c@x.com") (some "zzz") =
      LoginResult.failure 400 "Email hoặc mật khẩu sai" := by
  decide

/-- Claim C2 (amended): for an APPROVED registered user whose stored
hash does not verify the supplied password, login answers with exactly
the same status 400 and message text as a login with an email no user
holds, so those two responses do not reveal whether the email exists. -/
theorem C2_login_no_enumeration (s : Store) (e1 e2 p1 p2 : Option String) (u : User)
    (h1 : s.users.filter (fun x => x.email == normEmail (orEmpty e1)) = [])
    (h2 : s.users.filter (fun x => x.email == normEmail (orEmpty e2)) = [u])
    (hap : u.approved = true)
    (hbad : bcryptCompare (orEmpty p2) u.pass_hash = false) :
    login s e1 p1 = LoginResult.failure 400 "Email hoặc mật khẩu sai" ∧
    login s e2 p2 = login s e1 p1 := by
  have hA : login s e1 p1 = LoginResult.failure 400 "Email hoặc mật khẩu sai" := by
    rw [login, maybeSingle_of_filter_nil h1]
  have hB : login s e2 p2 = LoginResult.failure 400 "Email hoặc mật khẩu sai" := by
    rw [login, maybeSingle_of_filter_single h2]
    simp [hap, hbad]
  exact ⟨hA, hB.trans hA.symm⟩

/-- Witness for the amended C2 on the concrete store `s1`. -/
theorem C2_login_no_enumeration_witness :
    login s1 (some "c@x.com") (some "q") =
      LoginResult.failure 400 "Email hoặc mật khẩu sai" ∧
    login s1 (some "a@x.com") (some "wrong") = login s1 (some "c@x.com") (some "q") :=
  C2_login_no_enumeration s1 (some "c@x.com") (some "a@x.com") (some "q") (some "wrong") u1
    (by decide) (by decide) (by decide) (by decide)

/-- Claim C3 fails as stated at the boundary instant: the code tests
`expires_at < now`, so a reset performed exactly at `now = expires_at`
— a time not strictly before the expiry — still succeeds with 200,
where the claim demands a 400 expired response.  Concretely: the row in
`s1` expires at 1000 and a reset at time 1000 answers 200. -/
theorem C3_reset_boundary_counterexample :
    s1.resets.filter (fun r => r.email == normEmail (orEmpty (some "a@x.com")) &&
      r.token == orEmpty (some "tok1")) = [⟨7, "a@x.com", "tok1", 1000⟩] ∧
    ¬(1000 < (1000 : Nat)) ∧
    (reset s1 1000 true (some "a@x.com") (some "tok1") (some "np")).1 =
      ⟨200, "Đã đặt lại mật khẩu"⟩ := by
  decide

/-- Claim C3 (amended): a reset token is valid exactly while
`now ≤ expires_at`.  With the matching row present, a reset at a time
with `expires_at < now` answers 400 with the expired message and leaves
the store — including every stored password hash — unchanged, even
though the row still exists; whenever `now ≤ expires_at` (including the
boundary instant) the reset answers 200.  The forgot handler stamps
each new reset row with `expires_at` = creation time + 30 minutes. -/
theorem C3_reset_expiry (s : Store) (now : Nat) (dOk : Bool) (email token np : Option String)
    (r : ResetRow) (mail : MailEnv) (s2 : Store) (now2 fid : Nat) (ftok : String)
    (femail : Option String) (u : User)
    (hr : s.resets.filter (fun x => x.email == normEmail (orEmpty email) &&
      x.token == orEmpty token) = [r])
    (hu : s2.users.filter (fun x => x.email == normEmail (orEmpty femail)) = [u]) :
    (r.expires_at < now →
      reset s now dOk email token np = (⟨400, "Token đã hết hạn"⟩, s)) ∧
    (now ≤ r.expires_at →
      (reset s now dOk email token np).1 = ⟨200, "Đã đặt lại mật khẩu"⟩) ∧
    (forgot mail now2 fid ftok s2 femail).2.resets =
      s2.resets ++ [⟨fid, normEmail (orEmpty femail), ftok, now2 + 1000 * 60 * 30⟩] := by
  refine ⟨fun hlt => ?_, fun hle => ?_, ?_⟩
  · rw [reset, maybeSingle_of_filter_single hr]
    simp [hlt]
  · rw [reset, maybeSingle_of_filter_single hr]
    simp [Nat.not_lt.mpr hle]
  · rw [forgot, maybeSingle_of_filter_single hu]
    cases hm : sendMailRaises mail <;> simp [hm, insertReset]

/-- Witness for the amended C3 on the concrete store `s1`, after the
expiry instant. -/
theorem C3_reset_expiry_witness :
    (1000 < 1001 →
      reset s1 1001 true (some "a@x.com") (some "tok1") (some "np") =
        (⟨400, "Token đã hết hạn"⟩, s1)) ∧
    (1001 ≤ 1000 →
      (reset s1 1001 true (some "a@x.com") (some "tok1") (some "np")).1 =
        ⟨200, "Đã đặt lại mật khẩu"⟩) ∧
    (forgot mailOk 500 9 "tk" s1 (some "a@x.com")).2.resets =
      s1.resets ++ [⟨9, "a@x.com", "tk", 500 + 1000 * 60 * 30⟩] :=
  C3_reset_expiry s1 1001 true (some "a@x.com") (some "tok1") (some "np")
    ⟨7, "a@x.com", "tok1", 1000⟩ mailOk s1 500 9 "tk" (some "a@x.com") u1
    (by decide) (by decide)

/-- Claim C4: when a stored user already holds the trimmed, lowercased
form of the submitted email (exactly one, per the unique-email
invariant of the users table) and all three fields are present,
POST /api/auth/register answers 400 with the duplicate-email message
and hands back the store unchanged: no row inserted, none modified. -/
theorem C4_register_duplicate (cfg : Config) (mail : MailEnv) (freshId : Nat) (s : Store)
    (name email password : Option String) (u : User)
    (hn : truthy name = true) (he : truthy email = true) (hp : truthy password = true)
    (hdup : s.users.filter (fun x => x.email == normEmail (orEmpty email)) = [u]) :
    register cfg mail freshId s name email password = (⟨400, "Email đã tồn tại"⟩, s) :=
  register_of_duplicate cfg mail freshId s name email password u hn he hp hdup

/-- Witness for C4 on the concrete store `s1`, with an email differing
from the stored one by case and surrounding whitespace. -/
theorem C4_register_duplicate_witness :
    register cfg0 mailOk 3 s1 (some "C") (some " A@X.com") (some "p") =
      (⟨400, "Email đã tồn tại"⟩, s1) :=
  C4_register_duplicate cfg0 mailOk 3 s1 (some "C") (some " A@X.com") (some "p") u1
    (by decide) (by decide) (by decide) (by decide)

/-- Claim C5: change-password with a valid bearer token resolving to
the stored user: a wrong oldPassword gets 400 and the store (hence the
stored hash) is untouched; the correct oldPassword gets 200, every user
row with that id now carries a hash that verifies the newPassword and
no longer verifies the old one, and on the resulting store a login with
the new password succeeds while a login with the old password fails
with 400. -/
theorem C5_change_password (s : Store) (uid : Nat) (oldPassword newPassword : Option String)
    (u : User)
    (hu : s.users.filter (fun x => x.id == uid) = [u])
    (hnp : truthy newPassword = true)
    (hemail : s.users.filter (fun x => x.email == normEmail u.email) = [u])
    (hap : u.approved = true)
    (hdiff : orEmpty oldPassword ≠ orEmpty newPassword) :
    (bcryptCompare (orEmpty oldPassword) u.pass_hash = false →
      changePassword s uid oldPassword newPassword =
        (⟨400, "Mật khẩu hiện tại không đúng"⟩, s)) ∧
    (bcryptCompare (orEmpty oldPassword) u.pass_hash = true →
      (changePassword s uid oldPassword newPassword).1 = ⟨200, "Đã đổi mật khẩu"⟩ ∧
      (∀ x ∈ (changePassword s uid oldPassword newPassword).2.users, x.id = uid →
        x.pass_hash = bcryptHash (orEmpty newPassword)) ∧
      bcryptCompare (orEmpty newPassword) (bcryptHash (orEmpty newPassword)) = true ∧
      bcryptCompare (orEmpty oldPassword) (bcryptHash (orEmpty newPassword)) = false ∧
      login (changePassword s uid oldPassword newPassword).2 (some u.email) newPassword =
        LoginResult.success (signToken u.id u.email u.name) u.id u.email u.name ∧
      login (changePassword s uid oldPassword newPassword).2 (some u.email) oldPassword =
        LoginResult.failure 400 "Email hoặc mật khẩu sai") := by
  have humem : u ∈ s.users.filter (fun x => x.id == uid) := by
    rw [hu]
    exact List.mem_singleton.mpr rfl
  have huid : (u.id == uid) = true := (List.mem_filter.mp humem).2
  constructor
  · intro hbad
    rw [changePassword, hnp]
    simp only [Bool.not_true, Bool.false_eq_true, if_false]
    rw [maybeSingle_of_filter_single hu]
    simp [hbad]
  · intro hgood
    have hres : changePassword s uid oldPassword newPassword =
        (⟨200, "Đã đổi mật khẩu"⟩,
          updatePassHashById s uid (bcryptHash (orEmpty newPassword))) := by
      rw [changePassword, hnp]
      simp only [Bool.not_true, Bool.false_eq_true, if_false]
      rw [maybeSingle_of_filter_single hu]
      simp [hgood]
    have hfil : (updatePassHashById s uid (bcryptHash (orEmpty newPassword))).users.filter
        (fun x => x.email == normEmail u.email) =
        [{ u with pass_hash := bcryptHash (orEmpty newPassword) }] := by
      rw [updatePassHashById]
      rw [filter_email_map_updateById s.users uid (bcryptHash (orEmpty newPassword))
        (normEmail u.email)]
      rw [hemail]
      simp only [List.map_cons, List.map_nil, if_pos huid]
    refine ⟨by rw [hres], ?_, bcryptCompare_bcryptHash _, bcryptCompare_bcryptHash_ne hdiff,
      ?_, ?_⟩
    · rw [hres]
      intro x hx hxid
      rw [updatePassHashById] at hx
      obtain ⟨y, hy, rfl⟩ := List.mem_map.mp hx
      by_cases hyid : (y.id == uid) = true
      · rw [if_pos hyid]
      · rw [if_neg hyid] at hxid ⊢
        exact absurd hxid (by simpa using hyid)
    · rw [hres]
      rw [login]
      simp only [orEmpty_some]
      rw [maybeSingle_of_filter_single hfil]
      simp [hap, bcryptCompare_bcryptHash]
    · rw [hres]
      rw [login]
      simp only [orEmpty_some]
      rw [maybeSingle_of_filter_single hfil]
      simp [hap, bcryptCompare_bcryptHash, bcryptCompare_bcryptHash_ne hdiff]

/-- Witness for C5 on the concrete store `s1` and its approved user. -/
theorem C5_change_password_witness :
    (bcryptCompare (orEmpty (some "p1")) u1.pass_hash = false →
      changePassword s1 1 (some "p1") (some "p9") =
        (⟨400, "Mật khẩu hiện tại không đúng"⟩, s1)) ∧
    (bcryptCompare (orEmpty (some "p1")) u1.pass_hash = true →
      (changePassword s1 1 (some "p1") (some "p9")).1 = ⟨200, "Đã đổi mật khẩu"⟩ ∧
      (∀ x ∈ (changePassword s1 1 (some "p1") (some "p9")).2.users, x.id = 1 →
        x.pass_hash = bcryptHash (orEmpty (some "p9"))) ∧
      bcryptCompare (orEmpty (some "p9")) (bcryptHash (orEmpty (some "p9"))) = true ∧
      bcryptCompare (orEmpty (some "p1")) (bcryptHash (orEmpty (some "p9"))) = false ∧
      login (changePassword s1 1 (some "p1") (some "p9")).2 (some u1.email) (some "p9") =
        LoginResult.success (signToken u1.id u1.email u1.name) u1.id u1.email u1.name ∧
      login (changePassword s1 1 (some "p1") (some "p9")).2 (some u1.email) (some "p1") =
        LoginResult.failure 400 "Email hoặc mật khẩu sai") :=
  C5_change_password s1 1 (some "p1") (some "p9") u1
    (by decide) (by decide) (by decide) (by decide) (by decide)

/-- Claim C6 fails as stated: when the transporter is configured and
the send rejects, the `await sendMail(...)` exception is NOT swallowed
— it propagates to the handler catch block, which answers 500 with the
generic server-error message instead of the normal success response.
Concretely, a register into the empty store and a forgot for a stored
user both answer 500 under a failing configured mailer. -/
theorem C6_mail_failure_counterexample :
    sendMailRaises mailBad = true ∧
    cfg0.adminEmail.isEmpty = false ∧
    (register cfg0 mailBad 1 s0 (some "n") (some "a@x.com") (some "p")).1 =
      ⟨500, "Lỗi server"⟩ ∧
    (forgot mailBad 500 9 "tk" s1 (some "a@x.com")).1 = ⟨500, "Lỗi server"⟩ := by
  decide

/-- Claim C6 (amended): a failing configured mail send changes the HTTP
response.  With valid register input (no duplicate) and the admin
address configured, and a stored user for forgot: if the send raises,
register and forgot both answer 500 with the generic server-error
message, while the rows written before the send (the new user, the new
reset row) remain inserted; if the send does not raise, both answer
their normal success responses over the same resulting stores. -/
theorem C6_mail_failure_behavior (cfg : Config) (mail : MailEnv) (freshId : Nat) (s : Store)
    (name email password : Option String) (s2 : Store) (now fid : Nat) (ftok : String)
    (femail : Option String) (u : User)
    (hn : truthy name = true) (he : truthy email = true) (hp : truthy password = true)
    (hnodup : s.users.filter (fun x => x.email == normEmail (orEmpty email)) = [])
    (hadmin : cfg.adminEmail.isEmpty = false)
    (hu : s2.users.filter (fun x => x.email == normEmail (orEmpty femail)) = [u]) :
    (sendMailRaises mail = true →
      register cfg mail freshId s name email password =
        (⟨500, "Lỗi server"⟩, insertUser s ⟨freshId, orEmpty name,
          normEmail (orEmpty email), bcryptHash (orEmpty password), false⟩) ∧
      forgot mail now fid ftok s2 femail =
        (⟨500, "Lỗi server"⟩, insertReset s2 ⟨fid, normEmail (orEmpty femail), ftok,
          now + 1000 * 60 * 30⟩)) ∧
    (sendMailRaises mail = false →
      register cfg mail freshId s name email password =
        (⟨200, "Đăng ký thành công. Vui lòng đợi admin phê duyệt."⟩,
          insertUser s ⟨freshId, orEmpty name, normEmail (orEmpty email),
            bcryptHash (orEmpty password), false⟩) ∧
      forgot mail now fid ftok s2 femail =
        (⟨200, "Nếu email tồn tại, chúng tôi đã gửi hướng dẫn."⟩,
          insertReset s2 ⟨fid, normEmail (orEmpty femail), ftok, now + 1000 * 60 * 30⟩)) := by
  constructor
  · intro hraise
    constructor
    · rw [register, hn, he, hp]
      simp only [Bool.and_self, Bool.not_true, Bool.false_eq_true, if_false]
      rw [maybeSingle_of_filter_nil hnodup]
      simp [hadmin, hraise]
    · rw [forgot, maybeSingle_of_filter_single hu]
      simp [hraise]
  · intro hok
    constructor
    · rw [register, hn, he, hp]
      simp only [Bool.and_self, Bool.not_true, Bool.false_eq_true, if_false]
      rw [maybeSingle_of_filter_nil hnodup]
      simp [hok]
    · rw [forgot, maybeSingle_of_filter_single hu]
      simp [hok]

/-- Witness for the amended C6 under the failing configured mailer. -/
theorem C6_mail_failure_behavior_witness :
    register cfg0 mailBad 1 s0 (some "n") (some "new@x.com") (some "p") =
      (⟨500, "Lỗi server"⟩, insertUser s0 ⟨1, orEmpty (some "n"),
        normEmail (orEmpty (some "new@x.com")), bcryptHash (orEmpty (some "p")), false⟩) ∧
    forgot mailBad 500 9 "tk" s1 (some "a@x.com") =
      (⟨500, "Lỗi server"⟩, insertReset s1 ⟨9, normEmail (orEmpty (some "a@x.com")), "tk",
        500 + 1000 * 60 * 30⟩) :=
  (C6_mail_failure_behavior cfg0 mailBad 1 s0 (some "n") (some "new@x.com") (some "p")
    s1 500 9 "tk" (some "a@x.com") u1
    (by decide) (by decide) (by decide) (by decide) (by decide) (by decide)).1 rfl

/-- Claim C7 fails as stated for whitespace-only emails: the submitted
email is truthy while its trimmed, lowercased form is the falsy empty
string, so the presence check fires on one and not the other.
Concretely, approve with a correct admin code accepts a single space
(answering 200 after updating nothing) but rejects the normalised empty
string with a 400 missing-fields response. -/
theorem C7_whitespace_email_counterexample :
    jsTrim (jsToLower " ") = "" ∧
    approve cfg0 s0 (some " ") (some "secret") = (⟨200, "Đã duyệt"⟩, s0) ∧
    approve cfg0 s0 (some (jsTrim (jsToLower " "))) (some "secret") =
      (⟨400, "Thiếu email/code"⟩, s0) := by
  decide

/-- Claim C7 (amended): email handling is normalised.  Login behaves
identically on any email and its trimmed, lowercased form; approve and
register behave identically whenever that form is nonempty (for a
whitespace-only email the presence check distinguishes them); a
successful register stores the normalised lowercase form; and a later
registration submitting the normalised email is rejected as a
duplicate with 400. -/
theorem C7_normalized_email_handling (cfg : Config) (mail : MailEnv) (fid fid2 : Nat)
    (s : Store) (e e2 : String) (p code name pwd name2 pwd2 : Option String)
    (hne : jsTrim (jsToLower e) ≠ "")
    (hn : truthy name = true) (hpw : truthy pwd = true)
    (hn2 : truthy name2 = true) (hpw2 : truthy pwd2 = true)
    (hnodup : s.users.filter (fun x => x.email == normEmail e) = []) :
    login s (some e2) p = login s (some (jsTrim (jsToLower e2))) p ∧
    approve cfg s (some e) code = approve cfg s (some (jsTrim (jsToLower e))) code ∧
    register cfg mail fid s name (some e) pwd =
      register cfg mail fid s name (some (jsTrim (jsToLower e))) pwd ∧
    (register cfg mail fid s name (some e) pwd).2.users =
      s.users ++ [⟨fid, orEmpty name, normEmail e, bcryptHash (orEmpty pwd), false⟩] ∧
    register cfg mail fid2 (register cfg mail fid s name (some e) pwd).2 name2
        (some (normEmail e)) pwd2 =
      (⟨400, "Email đã tồn tại"⟩, (register cfg mail fid s name (some e) pwd).2) := by
  have he : e ≠ "" := fun h => hne (by rw [h]; rfl)
  have hnorm_ne : normEmail e ≠ "" := by
    rw [normEmail, ← jsTrim_jsToLower]
    exact hne
  have htr1 : truthy (some e) = true := truthy_some_of_ne he
  have htr2 : truthy (some (jsTrim (jsToLower e))) = true := truthy_some_of_ne hne
  have h4 : (register cfg mail fid s name (some e) pwd).2.users =
      s.users ++ [⟨fid, orEmpty name, normEmail e, bcryptHash (orEmpty pwd), false⟩] := by
    rw [register, hn, htr1, hpw]
    simp only [Bool.and_self, Bool.not_true, Bool.false_eq_true, if_false, orEmpty_some]
    rw [maybeSingle_of_filter_nil hnodup]
    cases hm : (!cfg.adminEmail.isEmpty && sendMailRaises mail) <;>
      simp [hm, insertUser]
  refine ⟨?_, ?_, ?_, h4, ?_⟩
  · simp only [login, orEmpty]
    rw [normEmail_trim_lower e2]
  · simp only [approve, orEmpty, htr1, htr2]
    rw [normEmail_trim_lower e]
  · simp only [register, orEmpty, htr1, htr2]
    rw [normEmail_trim_lower e]
  · have hdup : (register cfg mail fid s name (some e) pwd).2.users.filter
        (fun x => x.email == normEmail (orEmpty (some (normEmail e)))) =
        [⟨fid, orEmpty name, normEmail e, bcryptHash (orEmpty pwd), false⟩] := by
      simp only [orEmpty_some, normEmail_idem]
      rw [h4, List.filter_append, hnodup]
      simp
    exact register_of_duplicate cfg mail fid2 _ name2 (some (normEmail e)) pwd2
      ⟨fid, orEmpty name, normEmail e, bcryptHash (orEmpty pwd), false⟩
      hn2 (truthy_some_of_ne hnorm_ne) hpw2 hdup

/-- Witness for the amended C7, registering a mixed-case padded email
into `s1` and re-registering its normalised form. -/
theorem C7_normalized_email_handling_witness :
    login s1 (some " B@X.com") (some "q") =
      login s1 (some (jsTrim (jsToLower " B@X.com"))) (some "q") ∧
    approve cfg0 s1 (some " New@X.com ") (some "secret") =
      approve cfg0 s1 (some (jsTrim (jsToLower " New@X.com "))) (some "secret") ∧
    register cfg0 mailOk 3 s1 (some "Nm") (some " New@X.com ") (some "pw") =
      register cfg0 mailOk 3 s1 (some "Nm") (some (jsTrim (jsToLower " New@X.com "))) (some "pw") ∧
    (register cfg0 mailOk 3 s1 (some "Nm") (some " New@X.com ") (some "pw")).2.users =
      s1.users ++ [⟨3, orEmpty (some "Nm"), normEmail " New@X.com ",
        bcryptHash (orEmpty (some "pw")), false⟩] ∧
    register cfg0 mailOk 4 (register cfg0 mailOk 3 s1 (some "Nm") (some " New@X.com ")
        (some "pw")).2 (some "Nn") (some (normEmail " New@X.com ")) (some "pw2") =
      (⟨400, "Email đã tồn tại"⟩,
        (register cfg0 mailOk 3 s1 (some "Nm") (some " New@X.com ") (some "pw")).2) :=
  C7_normalized_email_handling cfg0 mailOk 3 4 s1 " New@X.com " " B@X.com" (some "q")
    (some "secret") (some "Nm") (some "pw") (some "Nn") (some "pw2")
    (by decide) (by decide) (by decide) (by decide) (by decide) (by decide)

/-- Claim C8: approve with both fields present and the correct
(nonempty) admin code answers 200 with the approved message even when
no stored user holds the given email, and in that case the update
matches no row, so the store is unchanged: approve never reports a
not-found error for an unknown email. -/
theorem C8_approve_unknown_email (cfg : Config) (s : Store) (email code : Option String)
    (he : truthy email = true) (hc : truthy code = true)
    (hcode : cfg.adminCode.isEmpty = false) (heq : orEmpty code = cfg.adminCode)
    (hnone : ∀ u ∈ s.users, (u.email == normEmail (orEmpty email)) = false) :
    approve cfg s email code = (⟨200, "Đã duyệt"⟩, s) := by
  rw [approve, he, hc]
  simp only [Bool.and_self, Bool.not_true, Bool.false_eq_true, if_false, hcode, heq,
    bne_self_eq_false, Bool.or_self]
  rw [updateApprovedByEmail]
  have hmap : s.users.map
      (fun u => if u.email == normEmail (orEmpty email) then { u with approved := true } else u) =
      s.users := by
    rw [List.map_congr_left (fun u hu => by rw [hnone u hu])]
    exact List.map_id s.users
  rw [hmap]

/-- Witness for C8 on the concrete store `s1` and an unknown email. -/
theorem C8_approve_unknown_email_witness :
    approve cfg0 s1 (some "zz@x.com") (some "secret") = (⟨200, "Đã duyệt"⟩, s1) :=
  C8_approve_unknown_email cfg0 s1 (some "zz@x.com") (some "secret")
    (by decide) (by decide) (by decide) (by decide) (by decide)

/-- Claim C9: reset does not require newPassword.  With a matching,
non-expired reset row and an absent or empty newPassword, the handler
still answers 200 and every stored user holding the normalised email
ends up with the hash of the empty string. -/
theorem C9_reset_no_newPassword (s : Store) (now : Nat) (dOk : Bool)
    (email token np : Option String) (r : ResetRow)
    (hr : s.resets.filter (fun x => x.email == normEmail (orEmpty email) &&
      x.token == orEmpty token) = [r])
    (hexp : now ≤ r.expires_at) (hnp : orEmpty np = "") :
    (reset s now dOk email token np).1 = ⟨200, "Đã đặt lại mật khẩu"⟩ ∧
    ∀ x ∈ (reset s now dOk email token np).2.users,
      x.email = normEmail (orEmpty email) → x.pass_hash = bcryptHash "" := by
  rw [reset, maybeSingle_of_filter_single hr]
  simp only [Nat.not_lt.mpr hexp, if_false]
  constructor
  · cases dOk <;> trivial
  · intro x hx hxe
    have husers : (if dOk then
        deleteResetById (updatePassHashByEmail s (normEmail (orEmpty email))
          (bcryptHash (orEmpty np))) r.id
        else updatePassHashByEmail s (normEmail (orEmpty email))
          (bcryptHash (orEmpty np))).users =
        (updatePassHashByEmail s (normEmail (orEmpty email))
          (bcryptHash (orEmpty np))).users := by
      cases dOk <;> rfl
    rw [husers] at hx
    rw [updatePassHashByEmail] at hx
    obtain ⟨y, hy, rfl⟩ := List.mem_map.mp hx
    by_cases hye : (y.email == normEmail (orEmpty email)) = true
    · rw [if_pos hye, hnp]
    · rw [if_neg hye] at hxe ⊢
      exact absurd hxe (by simpa using hye)

/-- Witness for C9 on the concrete store `s1` with newPassword
absent. -/
theorem C9_reset_no_newPassword_witness :
    (reset s1 900 true (some "a@x.com") (some "tok1") none).1 =
      ⟨200, "Đã đặt lại mật khẩu"⟩ ∧
    ∀ x ∈ (reset s1 900 true (some "a@x.com") (some "tok1") none).2.users,
      x.email = normEmail (orEmpty (some "a@x.com")) → x.pass_hash = bcryptHash "" :=
  C9_reset_no_newPassword s1 900 true (some "a@x.com") (some "tok1") none
    ⟨7, "a@x.com", "tok1", 1000⟩ (by decide) (by decide) (by decide)

/-- Claim C10: the reset handler never reads the result of the final
row deletion.  With a matching, non-expired row, a run whose delete
fails (removing nothing) answers exactly the same 200 response as a run
whose delete succeeds, and the reset row is still present in the
resulting store — a 200 does not guarantee the token row was
removed. -/
theorem C10_reset_ignores_delete_result (s : Store) (now : Nat)
    (email token np : Option String) (r : ResetRow)
    (hr : s.resets.filter (fun x => x.email == normEmail (orEmpty email) &&
      x.token == orEmpty token) = [r])
    (hexp : now ≤ r.expires_at) :
    (reset s now false email token np).1 = ⟨200, "Đã đặt lại mật khẩu"⟩ ∧
    (reset s now false email token np).1 = (reset s now true email token np).1 ∧
    r ∈ (reset s now false email token np).2.resets := by
  rw [reset, reset, maybeSingle_of_filter_single hr]
  simp only [Nat.not_lt.mpr hexp, if_false, if_true]
  refine ⟨by trivial, by trivial, ?_⟩
  have hrm : r ∈ s.resets := by
    refine List.mem_of_mem_filter (p := fun x => x.email == normEmail (orEmpty email) &&
      x.token == orEmpty token) ?_
    rw [hr]
    exact List.mem_singleton.mpr rfl
  exact hrm

/-- Witness for C10 on the concrete store `s1` with a failing
delete. -/
theorem C10_reset_ignores_delete_result_witness :
    (reset s1 950 false (some "a@x.com") (some "tok1") (some "np")).1 =
      ⟨200, "Đã đặt lại mật khẩu"⟩ ∧
    (reset s1 950 false (some "a@x.com") (some "tok1") (some "np")).1 =
      (reset s1 950 true (some "a@x.com") (some "tok1") (some "np")).1 ∧
    (⟨7, "a@x.com", "tok1", 1000⟩ : ResetRow) ∈
      (reset s1 950 false (some "a@x.com") (some "tok1") (some "np")).2.resets :=
  C10_reset_ignores_delete_result s1 950 (some "a@x.com") (some "tok1") (some "np")
    ⟨7, "a@x.com", "tok1", 1000⟩ (by decide) (by decide)

end PhongBackend
